import Mathlib

/-!
Verification of the `dmt_smtp` email sender (`src/dmt_smtp/smtp.py`).

The development shallowly embeds the `EmailSender` class.  Pure string
logic (`_find_sent_folder`, the IMAP host derivation) is translated to
executable Lean functions over `String`/`List Char`.  The network side
(smtplib/imaplib calls, the external `Email` builder) is modelled by an
oracle `World` fixing the outcome of every primitive operation, and each
method returns an `Except PyError` result together with the trace of
protocol operations it attempted, so ordering and error-flow claims
become statements about these deterministic functions.
-/

/-! ## Python string primitives -/

/-- Test whether `pat` occurs at the very start of `s` (character-wise). -/
def startsWithPat : List Char → List Char → Bool
  | [], _ => true
  | _ :: _, [] => false
  | p :: ps, c :: cs => p == c && startsWithPat ps cs

/-- Python substring test `pat in s`, on character lists. -/
def occursIn (pat : List Char) : List Char → Bool
  | [] => startsWithPat pat []
  | c :: rest => startsWithPat pat (c :: rest) || occursIn pat rest

/-- Python substring test `pat in s` over `String`. -/
def strContains (pat s : String) : Bool := occursIn pat.data s.data

/-- ASCII lowering of one character, as Python `str.lower` acts on the
ASCII mailbox names appearing here. -/
def charLower (c : Char) : Char :=
  if 'A' ≤ c ∧ c ≤ 'Z' then Char.ofNat (c.toNat + 32) else c

/-- Python `s.lower()` (ASCII fragment). -/
def pyLower (s : String) : String := ⟨s.data.map charLower⟩

/-- Fueled kernel of Python `str.replace` (all non-overlapping occurrences,
left to right).  For a non-empty pattern every step consumes at least one
character of `s`, so fuel `s.length` is always sufficient. -/
def pyReplaceFuel (pat rep : List Char) : Nat → List Char → List Char
  | 0, s => s
  | _ + 1, [] => []
  | fuel + 1, c :: rest =>
    if startsWithPat pat (c :: rest) then
      rep ++ pyReplaceFuel pat rep fuel ((c :: rest).drop pat.length)
    else
      c :: pyReplaceFuel pat rep fuel rest

/-- Python `s.replace(pat, rep)` over `String` (non-empty `pat`). -/
def pyReplaceStr (s pat rep : String) : String :=
  ⟨pyReplaceFuel pat.data rep.data s.data.length s.data⟩

/-- Fueled kernel of Python `s.split(sep)` for a non-empty separator;
`acc` is the segment currently being built.  Fuel `s.length + 1` is
always sufficient. -/
def pySplitFuel (sep : List Char) : Nat → List Char → List Char → List (List Char)
  | 0, s, acc => [acc ++ s]
  | _ + 1, [], acc => [acc]
  | fuel + 1, c :: rest, acc =>
    if startsWithPat sep (c :: rest) then
      acc :: pySplitFuel sep fuel ((c :: rest).drop sep.length) []
    else
      pySplitFuel sep fuel rest (acc ++ [c])

/-- Python `s.split(sep)` over `String` (non-empty `sep`). -/
def pySplitStr (s sep : String) : List String :=
  (pySplitFuel sep.data (s.data.length + 1) s.data []).map fun l => ⟨l⟩

/-! ## Sent-folder resolver (`_find_sent_folder`) -/

/-- The `email_folders` table of `_find_sent_folder`, in definition order. -/
def emailFolders : List (String × String) :=
  [("gmail", "\"[Gmail]/Sent Mail\""),
   ("yahoo", "Sent"),
   ("outlook", "\"[Outlook]/Sent\""),
   ("hotmail", "\"[Hotmail]/Sent\""),
   ("aol", "Sent"),
   ("icloud", "Sent Messages")]

/-- Inner loop of `_find_sent_folder`: first provider of the table whose
keyword occurs in the lowered mailbox name yields its folder. -/
def findProviderFolder : List (String × String) → String → Option String
  | [], _ => none
  | (provider, folder) :: rest, lowerName =>
    if strContains provider lowerName then some folder
    else findProviderFolder rest lowerName

/-- Python `mailbox_name.split(' "." ')[-1]`. -/
def lastSegment (mailboxName : String) : String :=
  (pySplitStr mailboxName " \".\" ").getLastD ""

/-- `_find_sent_folder`, on the decoded mailbox-listing entries: scan the
listing in order for the first entry containing `"sent"` (lowered); on it
try the provider table, falling back to the last `' "." '` segment; stop
there (the `break`).  `none` when no entry contains `"sent"`. -/
def findSentFolder : List String → Option String
  | [] => none
  | mailbox :: rest =>
    let lowerName := pyLower mailbox
    if strContains "sent" lowerName then
      match findProviderFolder emailFolders lowerName with
      | some folder => some folder
      | none => some (lastSegment mailbox)
    else findSentFolder rest

/-- Resolver as the spec words it: the result is a function of the first
`"sent"`-containing entry alone — provider-table scan in table order,
else the last delimiter-split segment; `none` when no entry qualifies. -/
def resolverSpec (entries : List String) : Option String :=
  (entries.find? fun e => strContains "sent" (pyLower e)).map fun e =>
    match emailFolders.find? (fun p => strContains p.1 (pyLower e)) with
    | some p => p.2
    | none => lastSegment e

example : findSentFolder ["INBOX", "[Gmail]/Sent Mail", "[Gmail]/Trash"]
    = some "\"[Gmail]/Sent Mail\"" := by decide

example : findSentFolder ["INBOX", "Personal \".\" MyCustomSentFolder"]
    = some "MyCustomSentFolder" := by decide

example : findSentFolder ["INBOX", "Drafts"] = none := by decide

/-! ## Exceptions, protocol events, oracle world -/

/-- The Python exception kinds the module can raise or observe. -/
inductive PyError where
  | valueError (msg : String)
  | smtpException (msg : String)
  | connectionError (msg : String)
  | attributeError (msg : String)
  | otherError (msg : String)
deriving DecidableEq

/-- Python `str(e)` on the exceptions above. -/
def pyStr : PyError → String
  | .valueError m => m
  | .smtpException m => m
  | .connectionError m => m
  | .attributeError m => m
  | .otherError m => m

/-- An exception matched by `except (smtplib.SMTPException, ValueError)`. -/
def isSmtpExcOrValueError : PyError → Bool
  | .smtpException _ => true
  | .valueError _ => true
  | _ => false

/-- An exception that is a Python `ConnectionError`. -/
def isConnectionError : PyError → Bool
  | .connectionError _ => true
  | _ => false

/-- Did an `Except` computation succeed? -/
def exOk {α : Type} : Except PyError α → Bool
  | .ok _ => true
  | .error _ => false

/-- Protocol-level operations observable on the network legs.  Log calls
that the claims mention (the severed-socket warning, exception logs) are
events too. -/
inductive Event where
  | smtpConnectPlain (host : String) (port : Int)
  | smtpStartTls
  | smtpConnectSsl (host : String) (port : Int)
  | smtpLoginEv
  | imapConnectEv (host : String) (port : Int)
  | imapLoginEv
  | sendmailEv
  | listEv
  | appendEv (folder : Option String)
  | quitEv
  | logoutEv
  | warnEv
  | infoEv
  | excLogEv
deriving DecidableEq

/-- Modelled from the spec: the external Email-builder collaborator (the
`Email` class, not under `src/`) produces a record holding the message,
the expanded recipient list and the descriptive fields the Send Result
echoes back. -/
structure Email where
  from_email : String
  subject : String
  body : String
  html_body : Option String
  to_email : String
  cc_emails : Option String
  signature_path : Option String
  file_path : Option String
  recipients : List String
  msg : String
deriving DecidableEq

/-- Modelled from the spec: the `SMTPResponse` result record (the
`models` module, not under `src/`): success flag, the descriptive fields
of the built message, and optional error message / error code. -/
structure SMTPResponse where
  success : Bool
  from_email : String
  subject : String
  body : String
  html_body : Option String
  to_email : String
  cc_emails : Option String
  signature_path : Option String
  file_path : Option String
  error : Option String := none
  error_code : Option Nat := none
deriving DecidableEq

/-- Oracle fixing the outcome of every primitive operation delegated to
smtplib/imaplib/the builder: the functions below are deterministic given
a `World`. -/
structure World where
  plainConnectR : Except PyError Unit
  startTlsR : Except PyError Unit
  sslConnectR : Except PyError Unit
  smtpLoginR : Except PyError Unit
  imapConnectR : Except PyError Unit
  imapLoginR : Except PyError Unit
  buildResult : Except PyError Email
  sendmailResult : Except PyError Unit
  listResult : Except PyError (List String)
  appendResult : Except PyError Unit
  quitResult : Except PyError Unit
  logoutResult : Except PyError Unit

/-- The SMTP handle retained in `self.server`; `sockAlive` models the
truthiness of `self.server.sock` at close time. -/
structure SmtpHandle where
  sockAlive : Bool
deriving DecidableEq

/-- The mutable connection state `{self.server, self.imap}`; `none`
models Python `None`. -/
structure ConnState where
  server : Option SmtpHandle
  imap : Option Unit
deriving DecidableEq

/-! ## Session connector (`_connect_smtp`, `_connect_imap`, `__init__`) -/

/-- IMAP host derivation `self.url.replace("smtp", "imap")`. -/
def imapHost (url : String) : String := pyReplaceStr url "smtp" "imap"

/-- Transport establishment of `_connect_smtp`: the `if/elif/else` on the
port inside the `try` block — plain connect plus `starttls()` for 587,
TLS-wrapped connect for 465, `ValueError` otherwise. -/
def smtpTransport (w : World) (url : String) (port : Int) :
    Except PyError Unit × List Event :=
  if port = 587 then
    match w.plainConnectR with
    | .error e => (.error e, [Event.smtpConnectPlain url port])
    | .ok _ =>
      match w.startTlsR with
      | .error e => (.error e, [Event.smtpConnectPlain url port, Event.smtpStartTls])
      | .ok _ => (.ok (), [Event.smtpConnectPlain url port, Event.smtpStartTls])
  else if port = 465 then
    match w.sslConnectR with
    | .error e => (.error e, [Event.smtpConnectSsl url port])
    | .ok _ => (.ok (), [Event.smtpConnectSsl url port])
  else
    (.error (.valueError "Porta SMTP inválida. Use 587 ou 465."), [])

/-- Body of the `try` block of `_connect_smtp`: transport establishment
followed by `server.login(...)`. -/
def connectSmtpTry (w : World) (url : String) (port : Int) :
    Except PyError Unit × List Event :=
  match smtpTransport w url port with
  | (.error e, evs) => (.error e, evs)
  | (.ok _, evs) =>
    match w.smtpLoginR with
    | .error e => (.error e, evs ++ [Event.smtpLoginEv])
    | .ok _ => (.ok (), evs ++ [Event.smtpLoginEv])

/-- `_connect_smtp`: the `try` body with both `except` clauses, each
re-raising as `ConnectionError` around `str(e)`. -/
def connectSmtp (w : World) (url : String) (port : Int) :
    Except PyError Unit × List Event :=
  match connectSmtpTry w url port with
  | (.ok _, evs) => (.ok (), evs)
  | (.error e, evs) =>
    if isSmtpExcOrValueError e then
      (.error (.connectionError ("Falha ao conectar ao servidor SMTP: " ++ pyStr e)), evs)
    else
      (.error (.connectionError ("Erro inesperado ao conectar ao servidor SMTP: " ++ pyStr e)), evs)

/-- `_connect_imap`: `IMAP4_SSL(url.replace("smtp","imap"), 993)` then
`imap.login(...)`, any exception re-raised as `ConnectionError`. -/
def connectImap (w : World) (url : String) : Except PyError Unit × List Event :=
  match w.imapConnectR with
  | .error e =>
    (.error (.connectionError ("Falha ao conectar ao servidor IMAP: " ++ pyStr e)),
     [Event.imapConnectEv (imapHost url) 993])
  | .ok _ =>
    match w.imapLoginR with
    | .error e =>
      (.error (.connectionError ("Falha ao conectar ao servidor IMAP: " ++ pyStr e)),
       [Event.imapConnectEv (imapHost url) 993, Event.imapLoginEv])
    | .ok _ =>
      (.ok (), [Event.imapConnectEv (imapHost url) 993, Event.imapLoginEv])

/-- `__init__`: `self.server = self._connect_smtp()` then
`self.imap = self._connect_imap()`; an exception from either leg aborts
construction, so no state is returned in that case. -/
def emailSenderInit (w : World) (url : String) (port : Int) :
    Except PyError ConnState × List Event :=
  match connectSmtp w url port with
  | (.error e, evs) => (.error e, evs)
  | (.ok _, evs1) =>
    match connectImap w url with
    | (.error e, evs2) => (.error e, evs1 ++ evs2)
    | (.ok _, evs2) => (.ok ⟨some ⟨true⟩, some ()⟩, evs1 ++ evs2)

/-! ## Teardown (`close_connection`) -/

/-- SMTP half of `close_connection`: guarded by `self.server is not None`;
inside the `try`, `quit()` only when `self.server.sock` is truthy, a
warning log otherwise; any exception is logged and swallowed; the
`finally` clears the handle. -/
def closeSmtpLeg (w : World) (st : ConnState) : ConnState × List Event :=
  match st.server with
  | none => (st, [])
  | some h =>
    let evs :=
      if h.sockAlive then
        match w.quitResult with
        | .ok _ => [Event.quitEv, Event.infoEv]
        | .error _ => [Event.quitEv, Event.excLogEv]
      else
        [Event.warnEv]
    ({ st with server := none }, evs)

/-- IMAP half of `close_connection`: guarded by `self.imap is not None`;
`logout()` in a `try`, exception logged and swallowed, handle cleared in
the `finally`. -/
def closeImapLeg (w : World) (st : ConnState) : ConnState × List Event :=
  match st.imap with
  | none => (st, [])
  | some _ =>
    let evs :=
      match w.logoutResult with
      | .ok _ => [Event.logoutEv, Event.infoEv]
      | .error _ => [Event.logoutEv, Event.excLogEv]
    ({ st with imap := none }, evs)

/-- `close_connection`: both legs in order.  Every primitive outcome is
handled by an `except`/`finally` pair in the source, so the function is
total — no exception escapes. -/
def closeConnection (w : World) (st : ConnState) : ConnState × List Event :=
  let p1 := closeSmtpLeg w st
  let p2 := closeImapLeg w p1.1
  (p2.1, p1.2 ++ p2.2)

/-! ## Send orchestrator (`send`) -/

/-- Body of the `try` block of `send`: `self.server.sendmail(...)`, then
`_find_sent_folder` (whose only fallible step is `self.imap.list()`),
then `self.imap.append(sent_folder, ...)`.  A `none` handle dereference
raises `AttributeError` exactly where the source would. -/
def sendTry (w : World) (st : ConnState) : Except PyError Unit × List Event :=
  match st.server with
  | none =>
    (.error (.attributeError "\x27NoneType\x27 object has no attribute \x27sendmail\x27"), [])
  | some _ =>
    match w.sendmailResult with
    | .error e => (.error e, [Event.sendmailEv])
    | .ok _ =>
      match st.imap with
      | none =>
        (.error (.attributeError "\x27NoneType\x27 object has no attribute \x27list\x27"),
         [Event.sendmailEv])
      | some _ =>
        match w.listResult with
        | .error e => (.error e, [Event.sendmailEv, Event.listEv])
        | .ok mailboxes =>
          match w.appendResult with
          | .error e =>
            (.error e,
             [Event.sendmailEv, Event.listEv, Event.appendEv (findSentFolder mailboxes)])
          | .ok _ =>
            (.ok (),
             [Event.sendmailEv, Event.listEv, Event.appendEv (findSentFolder mailboxes)])

/-- The success `SMTPResponse` built at the end of the `try` block. -/
def successResponse (em : Email) : SMTPResponse :=
  { success := true, from_email := em.from_email, subject := em.subject,
    body := em.body, html_body := em.html_body, to_email := em.to_email,
    cc_emails := em.cc_emails, signature_path := em.signature_path,
    file_path := em.file_path, error := none, error_code := none }

/-- The failure `SMTPResponse` built in the `except` clause of `send`. -/
def failureResponse (em : Email) (errMsg : String) : SMTPResponse :=
  { successResponse em with success := false, error := some errMsg, error_code := some 500 }

/-- `send`: message construction (`Email(...)`) outside the `try` — its
exception propagates; then the `try` body; on any exception there, the
`except Exception` clause formats the message around `str(e)` and the
original recipient and returns the failure response. -/
def send (w : World) (st : ConnState) (toAddr : String) :
    Except PyError SMTPResponse × List Event :=
  match w.buildResult with
  | .error e => (.error e, [])
  | .ok em =>
    match sendTry w st with
    | (.ok _, evs) => (.ok (successResponse em), evs)
    | (.error e, evs) =>
      (.ok (failureResponse em ("Erro ao enviar e-mail para " ++ toAddr ++ ": " ++ pyStr e)),
       evs)

/-! ## Concrete data for witnesses and counterexamples -/

/-- A concrete built message. -/
def sampleEmail : Email :=
  { from_email := "user@example.com", subject := "hello", body := "hi",
    html_body := none, to_email := "dest@example.com", cc_emails := none,
    signature_path := none, file_path := none,
    recipients := ["dest@example.com"], msg := "raw message" }

/-- World in which every primitive operation succeeds. -/
def allOkWorld : World :=
  { plainConnectR := .ok (), startTlsR := .ok (), sslConnectR := .ok (),
    smtpLoginR := .ok (), imapConnectR := .ok (), imapLoginR := .ok (),
    buildResult := .ok sampleEmail, sendmailResult := .ok (),
    listResult := .ok ["INBOX", "[Gmail]/Sent Mail", "[Gmail]/Trash"],
    appendResult := .ok (), quitResult := .ok (), logoutResult := .ok () }

/-- World in which only the SMTP transmit raises. -/
def sendFailWorld : World :=
  { allOkWorld with sendmailResult := .error (.smtpException "boom") }

/-- World in which only SMTP authentication raises. -/
def loginFailWorld : World :=
  { allOkWorld with smtpLoginR := .error (.smtpException "auth rejected") }

/-- World in which only message construction raises. -/
def buildFailWorld : World :=
  { allOkWorld with buildResult := .error (.otherError "attachment missing") }

/-- A fully connected state with a live socket. -/
def liveState : ConnState := ⟨some ⟨true⟩, some ()⟩

/-- A state whose SMTP handle exists but whose socket is severed. -/
def severedState : ConnState := ⟨some ⟨false⟩, some ()⟩

/-- The five primitive steps of the `try` block of `send` all succeed
(both handles live, transmit, listing and append do not raise). -/
def trySucceedsB (w : World) (st : ConnState) : Bool :=
  st.server.isSome && exOk w.sendmailResult && st.imap.isSome
    && exOk w.listResult && exOk w.appendResult

/-- Recognize the transmit event. -/
def isSendmailEv : Event → Bool
  | .sendmailEv => true
  | _ => false

/-- Recognize an archive-append event. -/
def isAppendEv : Event → Bool
  | .appendEv _ => true
  | _ => false

/-! ## Helper lemmas -/

theorem strData_append (s t : String) : (s ++ t).data = s.data ++ t.data := rfl

theorem startsWithPat_append_self (pat post : List Char) :
    startsWithPat pat (pat ++ post) = true := by
  induction pat with
  | nil => rfl
  | cons p ps ih => simp [startsWithPat, ih]

theorem occursIn_append_mid (pre pat post : List Char) :
    occursIn pat (pre ++ (pat ++ post)) = true := by
  induction pre with
  | nil =>
    simp only [List.nil_append]
    cases hp : pat ++ post with
    | nil =>
      rcases List.append_eq_nil.mp hp with ⟨h1, h2⟩
      subst h1; subst h2; rfl
    | cons c rest =>
      have hs : startsWithPat pat (c :: rest) = true := by
        rw [← hp]; exact startsWithPat_append_self pat post
      simp [occursIn, hs]
  | cons c pre ih => simp [occursIn, ih]

theorem strContains_formatted (a t b c : String) :
    strContains t (a ++ t ++ b ++ c) = true := by
  unfold strContains
  have hd : (a ++ t ++ b ++ c).data = a.data ++ (t.data ++ (b.data ++ c.data)) := by
    simp [strData_append]
  rw [hd]
  exact occursIn_append_mid a.data t.data (b.data ++ c.data)

theorem findProviderFolder_eq_find (table : List (String × String)) (lowerName : String) :
    findProviderFolder table lowerName
      = (table.find? fun p => strContains p.1 lowerName).map Prod.snd := by
  induction table with
  | nil => rfl
  | cons p rest ih =>
    obtain ⟨provider, folder⟩ := p
    by_cases h : strContains provider lowerName = true
    · simp [findProviderFolder, List.find?_cons_of_pos, h]
    · rw [findProviderFolder, if_neg (by simp [h]), ih,
        List.find?_cons_of_neg _ (by simp [h])]

theorem closeConnection_state (w : World) (st : ConnState) :
    (closeConnection w st).1 = ⟨none, none⟩ := by
  obtain ⟨server, imap⟩ := st
  cases server <;> cases imap <;>
    simp [closeConnection, closeSmtpLeg, closeImapLeg]

theorem connectImap_trace_mem (w : World) (url : String) :
    Event.imapConnectEv (imapHost url) 993 ∈ (connectImap w url).2 := by
  cases h1 : w.imapConnectR <;> cases h2 : w.imapLoginR <;>
    simp [connectImap, h1, h2]

theorem connectSmtp_try_shape (w : World) (url : String) (port : Int) :
    (connectSmtp w url port).2 = (connectSmtpTry w url port).2
      ∧ exOk (connectSmtp w url port).1 = exOk (connectSmtpTry w url port).1 := by
  rcases h : connectSmtpTry w url port with ⟨r, evs⟩
  cases r with
  | ok a => simp [connectSmtp, h, exOk]
  | error e =>
    by_cases hE : isSmtpExcOrValueError e = true <;>
      simp [connectSmtp, h, hE, exOk]

theorem connectSmtpTry_ok_mem (w : World) (url : String) (port : Int)
    (h : exOk (connectSmtpTry w url port).1 = true) :
    Event.smtpConnectPlain url port ∈ (connectSmtpTry w url port).2
      ∨ Event.smtpConnectSsl url port ∈ (connectSmtpTry w url port).2 := by
  by_cases h587 : port = 587
  · subst h587
    cases h1 : w.plainConnectR <;> cases h2 : w.startTlsR <;> cases h3 : w.smtpLoginR <;>
      simp_all [connectSmtpTry, smtpTransport, exOk]
  · by_cases h465 : port = 465
    · subst h465
      cases h1 : w.sslConnectR <;> cases h3 : w.smtpLoginR <;>
        simp_all [connectSmtpTry, smtpTransport, exOk]
    · simp_all [connectSmtpTry, smtpTransport, exOk]

theorem connectSmtp_ok_trace_mem (w : World) (url : String) (port : Int)
    (h : exOk (connectSmtp w url port).1 = true) :
    Event.smtpConnectPlain url port ∈ (connectSmtp w url port).2
      ∨ Event.smtpConnectSsl url port ∈ (connectSmtp w url port).2 := by
  obtain ⟨ht, ho⟩ := connectSmtp_try_shape w url port
  rw [ht]
  refine connectSmtpTry_ok_mem w url port ?_
  rw [← ho]
  exact h

/-! ## Claims -/

/-- C1: for every mailbox listing, `_find_sent_folder` returns a value
determined solely by the first entry containing `"sent"`
case-insensitively — the table provider hit in definition order if one
exists, otherwise the last segment of the entry split on the literal
delimiter; and `none` when no entry contains `"sent"`.  Stated as the
equality of the source translation with the resolver as the spec words
it. -/
theorem findSentFolder_matches_resolver_spec (entries : List String) :
    findSentFolder entries = resolverSpec entries := by
  induction entries with
  | nil => rfl
  | cons mailbox rest ih =>
    by_cases h : strContains "sent" (pyLower mailbox) = true
    · rw [resolverSpec,
        List.find?_cons_of_pos (p := fun e => strContains "sent" (pyLower e)) rest h]
      rw [findSentFolder]
      simp only [if_pos h, findProviderFolder_eq_find]
      cases hf : List.find? (fun p => strContains p.1 (pyLower mailbox)) emailFolders <;>
        simp [hf]
    · rw [resolverSpec,
        List.find?_cons_of_neg (p := fun e => strContains "sent" (pyLower e)) rest
          (by simp [h])]
      rw [findSentFolder]
      simp only [if_neg (by simp [h] : ¬ strContains "sent" (pyLower mailbox) = true)]
      exact ih

/-- C2 (counterexample): for the SMTP hostname `"smtpsmtp.foo"` the IMAP
connection leg attempts host `"imapimap.foo"`, not `"imapsmtp.foo"` as
the claim (first occurrence only) states: `str.replace` substitutes every
occurrence. -/
theorem imapHost_first_occurrence_cex :
    (connectImap allOkWorld "smtpsmtp.foo").2.head?
        = some (Event.imapConnectEv "imapimap.foo" 993)
      ∧ ("imapimap.foo" : String) ≠ "imapsmtp.foo" := by
  exact ⟨rfl, by decide⟩

/-- C2 (amended): the IMAP hostname used by the IMAP connection leg is
the SMTP hostname with every non-overlapping occurrence of `"smtp"`
replaced by `"imap"`; in particular `"smtp.example.com"` derives
`"imap.example.com"` and `"smtpsmtp.foo"` derives `"imapimap.foo"`. -/
theorem imapHost_used_by_imap_leg (w : World) (url : String) :
    (connectImap w url).2.head? = some (Event.imapConnectEv (imapHost url) 993)
      ∧ imapHost "smtp.example.com" = "imap.example.com"
      ∧ imapHost "smtpsmtp.foo" = "imapimap.foo" := by
  refine ⟨?_, by decide, by decide⟩
  cases h1 : w.imapConnectR <;> cases h2 : w.imapLoginR <;>
    simp [connectImap, h1, h2]

/-- C3 (counterexample): at port 22 the connector fails with a Python
`ConnectionError` — not a distinct `ConfigurationError` kind as the claim
states (the `ValueError` raised inside the `try` is caught by the
`except (SMTPException, ValueError)` clause and re-raised uniformly as
`ConnectionError`). -/
theorem invalid_port_kind_cex :
    (connectSmtp allOkWorld "smtp.example.com" 22).1
        = .error (.connectionError
            "Falha ao conectar ao servidor SMTP: Porta SMTP inválida. Use 587 ou 465.")
      ∧ isConnectionError (.connectionError
            "Falha ao conectar ao servidor SMTP: Porta SMTP inválida. Use 587 ou 465.")
          = true := by
  exact ⟨rfl, rfl⟩

/-- C3 (amended): for every port other than 587 and 465 the connector
fails with `ConnectionError` wrapping the invalid-port `ValueError`
message, raised before any network I/O is attempted (the operation trace
is empty). -/
theorem invalid_port_fails_before_io (w : World) (url : String) (port : Int)
    (h1 : port ≠ 587) (h2 : port ≠ 465) :
    connectSmtp w url port
      = (.error (.connectionError
          "Falha ao conectar ao servidor SMTP: Porta SMTP inválida. Use 587 ou 465."), []) := by
  have : connectSmtpTry w url port
      = (.error (.valueError "Porta SMTP inválida. Use 587 ou 465."), []) := by
    simp [connectSmtpTry, smtpTransport, h1, h2]
  rw [connectSmtp, this]
  rfl

theorem invalid_port_fails_before_io_witness :
    (22 : Int) ≠ 587 ∧ (22 : Int) ≠ 465
      ∧ connectSmtp allOkWorld "smtp.example.com" 22
          = (.error (.connectionError
              "Falha ao conectar ao servidor SMTP: Porta SMTP inválida. Use 587 ou 465."), []) :=
  ⟨by decide, by decide,
    invalid_port_fails_before_io allOkWorld "smtp.example.com" 22 (by decide) (by decide)⟩

/-- C4: when message construction succeeds and any step of the `try`
block of `send` raises (transmit, sent-folder resolution via the
listing, or archive-append, including a dereference of a cleared
handle), the exception is caught: `send` still returns (no exception),
with `success = false`, error code exactly 500, an error message
containing the primary recipient, and the built message's descriptive
fields populated. -/
theorem send_converts_failures_to_result (w : World) (st : ConnState)
    (toAddr : String) (em : Email)
    (hb : w.buildResult = .ok em) (hfail : trySucceedsB w st = false) :
    ∃ msg, (send w st toAddr).1 = .ok
        { success := false, from_email := em.from_email, subject := em.subject,
          body := em.body, html_body := em.html_body, to_email := em.to_email,
          cc_emails := em.cc_emails, signature_path := em.signature_path,
          file_path := em.file_path, error := some msg, error_code := some 500 }
      ∧ strContains toAddr msg = true := by
  obtain ⟨server, imap⟩ := st
  cases server <;> cases hsm : w.sendmailResult <;> cases imap <;>
    cases hl : w.listResult <;> cases hap : w.appendResult <;>
      simp_all [trySucceedsB, exOk, send, sendTry, failureResponse, successResponse] <;>
      exact strContains_formatted "Erro ao enviar e-mail para " toAddr ": " _

/-- C4 witness: transmit raises in `sendFailWorld`, construction
succeeds, and `send` returns the 500 failure result. -/
theorem send_converts_failures_to_result_witness :
    sendFailWorld.buildResult = .ok sampleEmail
      ∧ trySucceedsB sendFailWorld liveState = false
      ∧ ∃ msg, (send sendFailWorld liveState "dest@example.com").1 = .ok
          { success := false, from_email := sampleEmail.from_email,
            subject := sampleEmail.subject, body := sampleEmail.body,
            html_body := sampleEmail.html_body, to_email := sampleEmail.to_email,
            cc_emails := sampleEmail.cc_emails,
            signature_path := sampleEmail.signature_path,
            file_path := sampleEmail.file_path,
            error := some msg, error_code := some 500 }
        ∧ strContains "dest@example.com" msg = true :=
  ⟨rfl, rfl,
    send_converts_failures_to_result sendFailWorld liveState "dest@example.com"
      sampleEmail rfl rfl⟩

/-- C5: within one `send` call (construction succeeding), transmit and
archive-append are each attempted at most once; on the successful path
the trace is exactly transmit, then listing, then append — so each
occurs exactly once with append strictly after transmit; and when the
transmit raises, no append is ever attempted. -/
theorem send_transmit_append_order (w : World) (st : ConnState)
    (toAddr : String) (em : Email) (hb : w.buildResult = .ok em) :
    ((send w st toAddr).2.countP isSendmailEv ≤ 1
      ∧ (send w st toAddr).2.countP isAppendEv ≤ 1)
    ∧ (∀ resp, (send w st toAddr).1 = .ok resp → resp.success = true →
        ∃ boxes, w.listResult = .ok boxes
          ∧ (send w st toAddr).2
              = [Event.sendmailEv, Event.listEv, Event.appendEv (findSentFolder boxes)])
    ∧ (∀ e, w.sendmailResult = .error e →
        (send w st toAddr).2.countP isAppendEv = 0) := by
  obtain ⟨server, imap⟩ := st
  cases server <;> cases hsm : w.sendmailResult <;> cases imap <;>
    cases hl : w.listResult <;> cases hap : w.appendResult <;>
      simp_all [send, sendTry, failureResponse, successResponse,
        isSendmailEv, isAppendEv]

/-- C5 witness: on the all-success world the trace is transmit, listing,
append in that order; on the transmit-failure world no append occurs. -/
theorem send_transmit_append_order_witness :
    allOkWorld.buildResult = .ok sampleEmail
      ∧ (send allOkWorld liveState "dest@example.com").2
          = [Event.sendmailEv, Event.listEv,
             Event.appendEv (findSentFolder ["INBOX", "[Gmail]/Sent Mail", "[Gmail]/Trash"])]
      ∧ (send sendFailWorld liveState "dest@example.com").2.countP isAppendEv = 0 := by
  refine ⟨rfl, ?_, ?_⟩
  · obtain ⟨boxes, hbx, htr⟩ :=
      (send_transmit_append_order allOkWorld liveState "dest@example.com"
        sampleEmail rfl).2.1 (successResponse sampleEmail) rfl rfl
    have h2 : (Except.ok ["INBOX", "[Gmail]/Sent Mail", "[Gmail]/Trash"]
        : Except PyError (List String)) = Except.ok boxes := hbx
    have hb2 : boxes = ["INBOX", "[Gmail]/Sent Mail", "[Gmail]/Trash"] :=
      (Except.ok.inj h2).symm
    rw [← hb2]
    exact htr
  · exact (send_transmit_append_order sendFailWorld liveState "dest@example.com"
      sampleEmail rfl).2.2 (.smtpException "boom") rfl

/-- C6: a failure raised by the external Email-builder collaborator
propagates out of `send` unchanged as an exception — it is not caught,
no result record (in particular no false success) is produced, and no
network operation is attempted. -/
theorem builder_failure_propagates (w : World) (st : ConnState)
    (toAddr : String) (e : PyError) (hb : w.buildResult = .error e) :
    send w st toAddr = (.error e, []) := by
  simp [send, hb]

/-- C6 witness: the concrete builder failure surfaces unchanged. -/
theorem builder_failure_propagates_witness :
    buildFailWorld.buildResult = .error (.otherError "attachment missing")
      ∧ send buildFailWorld liveState "dest@example.com"
          = (.error (.otherError "attachment missing"), []) :=
  ⟨rfl, builder_failure_propagates buildFailWorld liveState "dest@example.com"
    (.otherError "attachment missing") rfl⟩

/-- C7: `close_connection` (total here because every exception of the
termination commands is caught in the source and the `finally` clauses
always run) leaves both handles `none` on every path; when the SMTP
socket is already severed it logs a warning and never attempts `quit`;
and a second consecutive close starts from both handles `none`, performs
no protocol operation (empty trace) and is a no-op. -/
theorem close_idempotent_never_raises (w : World) (st : ConnState) :
    (closeConnection w st).1 = ⟨none, none⟩
    ∧ (st.server = some ⟨false⟩ →
        Event.warnEv ∈ (closeConnection w st).2
          ∧ Event.quitEv ∉ (closeConnection w st).2)
    ∧ closeConnection w (closeConnection w st).1 = (⟨none, none⟩, []) := by
  refine ⟨closeConnection_state w st, ?_, ?_⟩
  · intro hs
    obtain ⟨server, imap⟩ := st
    simp only at hs
    subst hs
    cases imap <;> cases hq : w.logoutResult <;>
      simp [closeConnection, closeSmtpLeg, closeImapLeg, hq]
  · rw [closeConnection_state]
    rfl

/-- C7 witness: closing a severed-socket state warns, skips `quit`,
clears both handles; the repeated close is a trace-free no-op. -/
theorem close_idempotent_never_raises_witness :
    (closeConnection allOkWorld severedState).1 = ⟨none, none⟩
    ∧ Event.warnEv ∈ (closeConnection allOkWorld severedState).2
    ∧ Event.quitEv ∉ (closeConnection allOkWorld severedState).2
    ∧ closeConnection allOkWorld (closeConnection allOkWorld severedState).1
        = (⟨none, none⟩, []) := by
  obtain ⟨h1, h2, h3⟩ := close_idempotent_never_raises allOkWorld severedState
  exact ⟨h1, (h2 rfl).1, (h2 rfl).2, h3⟩

/-- C8: when the port-587 connection succeeds its transport trace is
plain connect, then STARTTLS, then authenticate, in that order; when
the port-465 connection succeeds its trace is TLS-wrapped connect then
authenticate; and no STARTTLS event ever occurs on port 465. -/
theorem smtp_transport_sequence (w : World) (url : String) :
    (exOk (connectSmtp w url 587).1 = true →
        (connectSmtp w url 587).2
          = [Event.smtpConnectPlain url 587, Event.smtpStartTls, Event.smtpLoginEv])
    ∧ (exOk (connectSmtp w url 465).1 = true →
        (connectSmtp w url 465).2
          = [Event.smtpConnectSsl url 465, Event.smtpLoginEv])
    ∧ Event.smtpStartTls ∉ (connectSmtp w url 465).2 := by
  obtain ⟨ht587, ho587⟩ := connectSmtp_try_shape w url 587
  obtain ⟨ht465, ho465⟩ := connectSmtp_try_shape w url 465
  rw [ht587, ho587, ht465, ho465]
  cases h1 : w.plainConnectR <;> cases h2 : w.startTlsR <;>
    cases h3 : w.sslConnectR <;> cases h4 : w.smtpLoginR <;>
      simp_all [connectSmtpTry, smtpTransport, exOk]

/-- C8 witness: the two transport sequences on the all-success world. -/
theorem smtp_transport_sequence_witness :
    exOk (connectSmtp allOkWorld "smtp.example.com" 587).1 = true
    ∧ (connectSmtp allOkWorld "smtp.example.com" 587).2
        = [Event.smtpConnectPlain "smtp.example.com" 587, Event.smtpStartTls,
           Event.smtpLoginEv]
    ∧ exOk (connectSmtp allOkWorld "smtp.example.com" 465).1 = true
    ∧ (connectSmtp allOkWorld "smtp.example.com" 465).2
        = [Event.smtpConnectSsl "smtp.example.com" 465, Event.smtpLoginEv] :=
  ⟨rfl, (smtp_transport_sequence allOkWorld "smtp.example.com").1 rfl,
    rfl, (smtp_transport_sequence allOkWorld "smtp.example.com").2.1 rfl⟩

/-- C9: construction either yields a state with both handles live after
attempting both legs (an SMTP connect event and the IMAP connect event
both appear in its trace), or — when either leg's connect/authenticate
fails — raises, yielding no state at all: no half-connected pair is ever
exposed. -/
theorem init_atomic (w : World) (url : String) (port : Int) :
    (∀ st, (emailSenderInit w url port).1 = .ok st →
        st.server.isSome = true ∧ st.imap.isSome = true
        ∧ (Event.smtpConnectPlain url port ∈ (emailSenderInit w url port).2
            ∨ Event.smtpConnectSsl url port ∈ (emailSenderInit w url port).2)
        ∧ Event.imapConnectEv (imapHost url) 993 ∈ (emailSenderInit w url port).2)
    ∧ ((exOk (connectSmtp w url port).1 = false
          ∨ exOk (connectImap w url).1 = false) →
        ∀ st, (emailSenderInit w url port).1 ≠ .ok st) := by
  rcases hS : connectSmtp w url port with ⟨rS, evS⟩
  rcases hI : connectImap w url with ⟨rI, evI⟩
  cases rS with
  | error e => simp [emailSenderInit, hS, exOk]
  | ok u =>
    cases rI with
    | error e => simp [emailSenderInit, hS, hI, exOk]
    | ok v =>
      constructor
      · intro st hst
        have hmemS : Event.smtpConnectPlain url port ∈ evS
            ∨ Event.smtpConnectSsl url port ∈ evS := by
          have := connectSmtp_ok_trace_mem w url port (by rw [hS]; rfl)
          rw [hS] at this
          exact this
        have hmemI : Event.imapConnectEv (imapHost url) 993 ∈ evI := by
          have := connectImap_trace_mem w url
          rw [hI] at this
          exact this
        have hst2 : st = (⟨some ⟨true⟩, some ()⟩ : ConnState) := by
          have : (emailSenderInit w url port).1
              = .ok (⟨some ⟨true⟩, some ()⟩ : ConnState) := by
            simp [emailSenderInit, hS, hI]
          rw [this] at hst
          exact (Except.ok.inj hst).symm
        subst hst2
        refine ⟨rfl, rfl, ?_, ?_⟩
        · have htr : (emailSenderInit w url port).2 = evS ++ evI := by
            simp [emailSenderInit, hS, hI]
          rw [htr]
          rcases hmemS with hm | hm
          · exact Or.inl (List.mem_append_left _ hm)
          · exact Or.inr (List.mem_append_left _ hm)
        · have htr : (emailSenderInit w url port).2 = evS ++ evI := by
            simp [emailSenderInit, hS, hI]
          rw [htr]
          exact List.mem_append_right _ hmemI
      · intro hbad
        rcases hbad with hb | hb <;> simp [exOk] at hb

/-- C9 witness: successful construction exposes the fully live pair with
both connect events in the trace; failed SMTP authentication yields no
state. -/
theorem init_atomic_witness :
    ((⟨some ⟨true⟩, some ()⟩ : ConnState).server.isSome = true
      ∧ (⟨some ⟨true⟩, some ()⟩ : ConnState).imap.isSome = true
      ∧ (Event.smtpConnectPlain "smtp.example.com" 587
            ∈ (emailSenderInit allOkWorld "smtp.example.com" 587).2
          ∨ Event.smtpConnectSsl "smtp.example.com" 587
              ∈ (emailSenderInit allOkWorld "smtp.example.com" 587).2)
      ∧ Event.imapConnectEv (imapHost "smtp.example.com") 993
          ∈ (emailSenderInit allOkWorld "smtp.example.com" 587).2)
    ∧ (emailSenderInit loginFailWorld "smtp.example.com" 587).1 ≠ .ok liveState :=
  ⟨(init_atomic allOkWorld "smtp.example.com" 587).1 ⟨some ⟨true⟩, some ()⟩ rfl,
    (init_atomic loginFailWorld "smtp.example.com" 587).2 (Or.inl rfl) liveState⟩

/-- C10: after `close_connection` has run (both handles `none`), a
`send` whose message construction succeeds does not raise in the network
phase: the dereference of the cleared SMTP handle happens inside the
catch-all `try`, so `send` returns a result with `success = false` and
error code 500, having attempted no protocol operation. -/
theorem send_after_close_returns_500 (w : World) (st st2 : ConnState)
    (tr : List Event) (toAddr : String) (em : Email)
    (hc : closeConnection w st = (st2, tr)) (hb : w.buildResult = .ok em) :
    (send w st2 toAddr).1 = .ok
        { success := false, from_email := em.from_email, subject := em.subject,
          body := em.body, html_body := em.html_body, to_email := em.to_email,
          cc_emails := em.cc_emails, signature_path := em.signature_path,
          file_path := em.file_path,
          error := some ("Erro ao enviar e-mail para " ++ toAddr ++ ": "
            ++ "\x27NoneType\x27 object has no attribute \x27sendmail\x27"),
          error_code := some 500 }
      ∧ (send w st2 toAddr).2 = [] := by
  have h2 : st2 = ⟨none, none⟩ := by
    have hcs := closeConnection_state w st
    rw [hc] at hcs
    exact hcs
  subst h2
  simp [send, sendTry, hb, pyStr, failureResponse, successResponse]

/-- C10 witness: closing the live pair then sending yields the caught
`AttributeError` as a 500 failure result. -/
theorem send_after_close_returns_500_witness :
    closeConnection allOkWorld liveState
        = (⟨none, none⟩, [Event.quitEv, Event.infoEv, Event.logoutEv, Event.infoEv])
      ∧ allOkWorld.buildResult = .ok sampleEmail
      ∧ (send allOkWorld ⟨none, none⟩ "dest@example.com").1 = .ok
          { success := false, from_email := sampleEmail.from_email,
            subject := sampleEmail.subject, body := sampleEmail.body,
            html_body := sampleEmail.html_body, to_email := sampleEmail.to_email,
            cc_emails := sampleEmail.cc_emails,
            signature_path := sampleEmail.signature_path,
            file_path := sampleEmail.file_path,
            error := some ("Erro ao enviar e-mail para " ++ "dest@example.com" ++ ": "
              ++ "\x27NoneType\x27 object has no attribute \x27sendmail\x27"),
            error_code := some 500 }
      ∧ (send allOkWorld ⟨none, none⟩ "dest@example.com").2 = [] :=
  ⟨rfl, rfl,
    (send_after_close_returns_500 allOkWorld liveState ⟨none, none⟩
      [Event.quitEv, Event.infoEv, Event.logoutEv, Event.infoEv]
      "dest@example.com" sampleEmail rfl rfl).1,
    (send_after_close_returns_500 allOkWorld liveState ⟨none, none⟩
      [Event.quitEv, Event.infoEv, Event.logoutEv, Event.infoEv]
      "dest@example.com" sampleEmail rfl rfl).2⟩
